import Mathlib

/-!
Shallow embedding of the overseer probe layer: the DNS prober
(protocols/dns_probe.go, DNSTest), the IMAPS prober (IMAPSTest, same file),
and the two variants of the enqueue subcommand (cmd_enqueue.go, old and new).

Go side effects are made explicit: package-level variables become a
`DNSGlobals` value threaded through the functions that read or assign them,
network exchanges become oracle functions passed as arguments together with a
trace of the addresses/actions actually used, Go panics become the `error`
side of an `Except GoPanic`, and Go `error` returns become `Option String` /
`Except String`.
-/

namespace Overseer

/-- Decidable equality for Except, so that concrete runs of the embedded
functions can be checked by `decide`. -/
instance {ε α : Type} [DecidableEq ε] [DecidableEq α] : DecidableEq (Except ε α) := fun x y =>
  match x, y with
  | .ok a, .ok b =>
    if h : a = b then .isTrue (by rw [h]) else .isFalse fun hc => h (Except.ok.inj hc)
  | .error a, .error b =>
    if h : a = b then .isTrue (by rw [h]) else .isFalse fun hc => h (Except.error.inj hc)
  | .ok _, .error _ => .isFalse fun hc => Except.noConfusion hc
  | .error _, .ok _ => .isFalse fun hc => Except.noConfusion hc

/-- Model of strings.Contains for a single-character substring, over the
character list of the string (Go compares bytes; on the inputs involved the
two views agree). -/
def goContains (s : String) (c : Char) : Bool :=
  s.toList.contains c

/-- Runtime panics that the embedded Go code can raise. -/
inductive GoPanic where
  | indexOutOfRange
  | nilDereference
deriving DecidableEq, Repr

/-- Model of the test.Test value: the raw input line and the argument map.
Go map indexing yields "" for absent keys, so `Arguments` is a total
function defaulting to "". -/
structure Test where
  Input : String
  Arguments : String → String

/-- Model of test.Options: the single timeout duration (nanoseconds). -/
structure Options where
  Timeout : Int

/-! ## DNS model (subset of github.com/miekg/dns used by dns_probe.go) -/

/-- dns.RcodeSuccess. -/
def RcodeSuccess : Nat := 0

/-- dns.RcodeNameError (NXDOMAIN). -/
def RcodeNameError : Nat := 3

/-- A DNS question entry (name and numeric query type). -/
structure Question where
  name : String
  qtype : Nat
deriving DecidableEq, Repr

/-- Answer resource records, restricted to the shapes dns_probe.go inspects.
The string in `A`/`AAAA` stands for `ent.A.String()` / `ent.AAAA.String()`;
`other` covers every record type the switch statement silently skips. -/
inductive RR where
  | A (addr : String)
  | AAAA (addr : String)
  | MX (preference : Nat) (mx : String)
  | NS (ns : String)
  | TXT (txt : List String)
  | other
deriving DecidableEq, Repr

/-- The parts of dns.Msg that dns_probe.go reads or writes. -/
structure Msg where
  recursionDesired : Bool := false
  question : List Question := []
  rcode : Nat := 0
  answer : List RR := []
deriving DecidableEq, Repr

/-- Model of (\*dns.Msg).SetQuestion: installs a single question and sets
RecursionDesired (the library also randomises the message Id, which carries
no information the prober ever reads, so it is omitted). -/
def Msg.setQuestion (m : Msg) (z : String) (t : Nat) : Msg :=
  { m with recursionDesired := true, question := [{ name := z, qtype := t }] }

/-- Model of dns.Fqdn: append a trailing dot unless already present (the
library additionally treats a backslash-escaped final dot as non-terminal;
no claim exercises escaped names). -/
def fqdn (s : String) : String :=
  if s.toList.getLast? = some '.' then s else s ++ "."

/-- The parts of dns.Client that dns_probe.go sets. -/
structure DNSClient where
  readTimeout : Int
deriving DecidableEq, Repr

/-- The package-level mutable state of protocols/dns_probe.go:
var ( localm \*dns.Msg ; localc \*dns.Client ).  `none` models a nil
pointer. -/
structure DNSGlobals where
  localm : Option Msg
  localc : Option DNSClient
deriving DecidableEq, Repr

/-- Outcome of one (\*dns.Client).Exchange call: a transport error, or a
reply message (Go allows a nil reply with a nil error). -/
inductive ExchangeResult where
  | transportError (e : String)
  | reply (r : Option Msg)

/-- Network oracle standing for (\*dns.Client).Exchange. -/
def Exchange : Type := DNSClient → String → Msg → ExchangeResult

/-- The StringToType map of localQuery.  A Go map lookup of an absent key
yields the zero value, hence 0 for unsupported tokens.  The numeric codes
are the dns library constants TypeA, TypeAAAA, TypeMX, TypeNS, TypeTXT. -/
def StringToType (s : String) : Nat :=
  if s = "A" then 1
  else if s = "AAAA" then 28
  else if s = "MX" then 15
  else if s = "NS" then 2
  else if s = "TXT" then 16
  else 0

/-- Address construction of localQuery lines 106-116: default to host:53,
overwrite with the bracketed form when the server string contains a colon. -/
def dnsAddress (server : String) : String :=
  let address := server ++ ":" ++ toString 53
  if goContains server ':' then "[" ++ server ++ "]:" ++ toString 53 else address

/-- Embedding of DNSTest.localQuery.  Reads the package globals (a nil
global would be a nil-pointer dereference), mutates localm via SetQuestion,
and performs at most one exchange; the returned list records the addresses
actually exchanged with (empty = no network I/O). -/
def localQuery (g : DNSGlobals) (exchange : Exchange) (server qname lookupType : String) :
    Except GoPanic (Except String (Option Msg) × DNSGlobals × List String) :=
  let qtype := StringToType lookupType
  if qtype = 0 then
    .ok (.error ("unsupported record to lookup \x27" ++ lookupType ++ "\x27"), g, [])
  else
    match g.localm, g.localc with
    | some m, some c =>
      let m := m.setQuestion qname qtype
      let g := { g with localm := some m }
      let address := dnsAddress server
      match exchange c address m with
      | .transportError e => .ok (.error e, g, [address])
      | .reply none => .ok (.ok none, g, [address])
      | .reply (some r) =>
        if r.rcode = RcodeNameError ∨ r.rcode = RcodeSuccess then
          .ok (.ok (some r), g, [address])
        else
          .ok (.ok none, g, [address])
    | _, _ => .error .nilDereference

/-- The answer-extraction loop of DNSTest.lookup lines 60-83: one canonical
string per supported record (address literal, "pref exchange", nameserver,
first TXT chunk), other types skipped.  Indexing txt[0] on an empty TXT
chunk list is an index-out-of-range panic. -/
def extractAnswers : List RR → Except GoPanic (List String)
  | [] => .ok []
  | .A a :: rest => (extractAnswers rest).map fun tl => a :: tl
  | .AAAA a :: rest => (extractAnswers rest).map fun tl => a :: tl
  | .MX pref mx :: rest => (extractAnswers rest).map fun tl => (toString pref ++ " " ++ mx) :: tl
  | .NS ns :: rest => (extractAnswers rest).map fun tl => ns :: tl
  | .TXT [] :: _ => .error .indexOutOfRange
  | .TXT (t :: _) :: rest => (extractAnswers rest).map fun tl => t :: tl
  | .other :: rest => extractAnswers rest

/-- Embedding of DNSTest.lookup: assigns fresh query/client objects to the
package-level globals, performs the query, translates a name-error rcode
into the "no such domain" error, and extracts the answers. -/
def lookup (g : DNSGlobals) (exchange : Exchange) (server name ltype : String) (timeout : Int) :
    Except GoPanic (Except String (List String) × DNSGlobals × List String) :=
  let g := { g with
    localm := some { recursionDesired := true, question := [{ name := "", qtype := 0 }] },
    localc := some { readTimeout := timeout } }
  match localQuery g exchange server (fqdn name) ltype with
  | .error p => .error p
  | .ok (.error e, g', q) => .ok (.error e, g', q)
  | .ok (.ok none, g', q) => .ok (.ok [], g', q)
  | .ok (.ok (some r), g', q) =>
    if r.rcode = RcodeNameError then
      .ok (.error ("no such domain " ++ fqdn name), g', q)
    else
      match extractAnswers r.answer with
      | .error p => .error p
      | .ok results => .ok (.ok results, g', q)

/-- Model of strings.Join(l, sep). -/
def goJoin (sep : String) : List String → String
  | [] => ""
  | [x] => x
  | x :: xs => x ++ sep ++ goJoin sep xs

/-- Lexicographic comparison of character lists: the order on which Go
sort.Strings sorts (Go compares UTF-8 bytes; byte order and code-point
order agree under UTF-8). -/
def charListLe : List Char → List Char → Bool
  | [], _ => true
  | _ :: _, [] => false
  | a :: as, b :: bs =>
    if a < b then true
    else if b < a then false
    else charListLe as bs

/-- Lexicographic string comparison backing the sort. -/
def goStringLe (s t : String) : Bool :=
  charListLe s.toList t.toList

/-- Model of sort.Strings: the (unique, since the order is total and
antisymmetric) lexicographically sorted permutation. -/
def sortStrings (l : List String) : List String :=
  List.insertionSort (fun a b => goStringLe a b = true) l

instance : IsTotal String fun a b => goStringLe a b = true := by
  constructor
  have key : ∀ as bs : List Char, charListLe as bs = true ∨ charListLe bs as = true := by
    intro as
    induction as with
    | nil => intro bs; left; simp [charListLe]
    | cons a as ih =>
      intro bs
      cases bs with
      | nil => right; simp [charListLe]
      | cons b bs =>
        rcases lt_trichotomy a b with h | h | h
        · left; simp [charListLe, h]
        · subst h
          rcases ih bs with h1 | h1
          · left; simp [charListLe, lt_irrefl, h1]
          · right; simp [charListLe, lt_irrefl, h1]
        · right; simp [charListLe, h]
  intro s t
  exact key s.toList t.toList

instance : IsTrans String fun a b => goStringLe a b = true := by
  constructor
  have key : ∀ as bs cs : List Char, charListLe as bs = true → charListLe bs cs = true →
      charListLe as cs = true := by
    intro as
    induction as with
    | nil => intro bs cs _ _; simp [charListLe]
    | cons a as ih =>
      intro bs cs hab hbc
      cases bs with
      | nil => simp [charListLe] at hab
      | cons b bs =>
        cases cs with
        | nil => simp [charListLe] at hbc
        | cons c cs =>
          rcases lt_trichotomy a b with h1 | h1 | h1
          · rcases lt_trichotomy b c with h2 | h2 | h2
            · simp [charListLe, lt_trans h1 h2]
            · subst h2; simp [charListLe, h1]
            · simp [charListLe, h2, lt_asymm h2] at hbc
          · subst h1
            rcases lt_trichotomy a c with h2 | h2 | h2
            · simp [charListLe, h2]
            · subst h2
              simp [charListLe, lt_irrefl] at hab hbc ⊢
              exact ih bs cs hab hbc
            · simp [charListLe, h2, lt_asymm h2] at hbc
          · simp [charListLe, h1, lt_asymm h1] at hab
  intro s t u
  exact key s.toList t.toList u.toList

instance : IsAntisymm String fun a b => goStringLe a b = true := by
  constructor
  have key : ∀ as bs : List Char, charListLe as bs = true → charListLe bs as = true →
      as = bs := by
    intro as
    induction as with
    | nil =>
      intro bs _ hba
      cases bs with
      | nil => rfl
      | cons b bs => simp [charListLe] at hba
    | cons a as ih =>
      intro bs hab hba
      cases bs with
      | nil => simp [charListLe] at hab
      | cons b bs =>
        rcases lt_trichotomy a b with h1 | h1 | h1
        · simp [charListLe, h1, lt_asymm h1] at hba
        · subst h1
          simp [charListLe, lt_irrefl] at hab hba
          rw [ih bs hab hba]
        · simp [charListLe, h1, lt_asymm h1] at hab
  intro s t h1 h2
  have h3 := key s.toList t.toList h1 h2
  cases s
  cases t
  exact congrArg String.mk h3

/-- The comparison step of DNSTest.RunTest lines 204-211: sort, join with
commas, compare byte-for-byte, report a mismatch naming both strings. -/
def compareDNSResults (res : List String) (result : String) : Option String :=
  let found := goJoin "," (sortStrings res)
  if found ≠ result then
    some ("expected DNS result to be \x27" ++ result ++ "\x27, but found \x27" ++ found ++ "\x27")
  else
    none

/-- Embedding of DNSTest.RunTest: argument validation, lookup, comparison.
The trace component again lists the addresses network I/O was attempted
against. -/
def DNSTest.RunTest (g : DNSGlobals) (exchange : Exchange) (tst : Test) (target : String)
    (opts : Options) : Except GoPanic (Option String × DNSGlobals × List String) :=
  if tst.Arguments "lookup" = "" then
    .ok (some "no value to lookup specified", g, [])
  else if tst.Arguments "type" = "" then
    .ok (some "no record-type to lookup", g, [])
  else
    match lookup g exchange target (tst.Arguments "lookup") (tst.Arguments "type") opts.Timeout with
    | .error p => .error p
    | .ok (.error e, g', q) => .ok (some e, g', q)
    | .ok (.ok res, g', q) => .ok (compareDNSResults res (tst.Arguments "result"), g', q)

/-! ## IMAPS model (IMAPSTest of the same file, using crypto/tls and
github.com/emersion/go-imap/client) -/

/-- The parts of tls.Config that IMAPSTest.RunTest sets. -/
structure TLSConfig where
  serverName : String := ""
  insecureSkipVerify : Bool := false
deriving DecidableEq, Repr

/-- Model of unicode.IsSpace restricted to the ASCII whitespace characters
(space, tab, newline, vertical tab, form feed, carriage return); the Go
function additionally accepts rare Unicode space code points that no claim
exercises. -/
def goIsSpace (c : Char) : Bool :=
  c = ' ' || c = '\t' || c = '\n' || c = '\x0b' || c = '\x0c' || c = '\r'

/-- Accumulator-based splitting into maximal non-whitespace runs; `acc`
holds the current run reversed. -/
def fieldsAux : List Char → List Char → List String
  | [], acc => if acc.isEmpty then [] else [String.mk acc.reverse]
  | c :: cs, acc =>
    if goIsSpace c then
      if acc.isEmpty then fieldsAux cs [] else String.mk acc.reverse :: fieldsAux cs []
    else
      fieldsAux cs (c :: acc)

/-- Model of strings.Fields: the maximal runs of non-whitespace characters,
in order; never contains an empty string. -/
def fields (s : String) : List String :=
  fieldsAux s.toList []

/-- Digit-run accumulator for goAtoi. -/
def parseDigitsAux : List Char → Nat → Option Nat
  | [], acc => some acc
  | c :: cs, acc =>
    if c.isDigit then parseDigitsAux cs (acc * 10 + (c.toNat - 48)) else none

/-- Model of strconv.Atoi: optional sign followed by at least one decimal
digit, anything else a syntax error (the 64-bit range check of the real
function is omitted; no claim exercises overflow). -/
def goAtoi (s : String) : Except String Int :=
  let parts :=
    match s.toList with
    | '-' :: rest => (true, rest)
    | '+' :: rest => (false, rest)
    | cs => (false, cs)
  match parts.2 with
  | [] => .error ("strconv.Atoi: parsing \"" ++ s ++ "\": invalid syntax")
  | ds =>
    match parseDigitsAux ds 0 with
    | none => .error ("strconv.Atoi: parsing \"" ++ s ++ "\": invalid syntax")
    | some n => .ok (if parts.1 then -(n : Int) else (n : Int))

/-- Port resolution of IMAPSTest.RunTest lines 302-312: default 993,
overridden by a successfully parsed `port` argument. -/
def imapsResolvePort (portArg : String) : Except String Int :=
  if portArg ≠ "" then goAtoi portArg else .ok 993

/-- Address construction of IMAPSTest.RunTest lines 322-332: host:port,
bracketed when the target contains a colon. -/
def imapsAddress (target : String) (port : Int) : String :=
  let address := target ++ ":" ++ toString port
  if goContains target ':' then "[" ++ target ++ "]:" ++ toString port else address

/-- TLS configuration of IMAPSTest.RunTest lines 317-357: server name from
the given first token of the input line, replaced by a verification-free
config when the tls argument is the literal "insecure". -/
def imapsTLSConfig (tst : Test) (firstToken : String) : TLSConfig :=
  let insecure : Bool := tst.Arguments "tls" == "insecure"
  let tlsSetup : TLSConfig := { serverName := firstToken }
  if insecure then { serverName := "", insecureSkipVerify := true } else tlsSetup

/-- Observable actions of one IMAPS probe run, in order. -/
inductive IMAPAction where
  | dial (address : String) (cfg : TLSConfig) (timeout : Int)
  | login (username password : String)
  | logout
  | close
deriving DecidableEq, Repr

/-- Oracle for the remote IMAP service: outcome of dialling, of a login
attempt, and of a logout (none = success, some e = the Go error). -/
structure IMAPServer where
  dialErr : String → TLSConfig → Option String
  loginErr : String → String → Option String
  logoutErr : Option String

/-- Embedding of IMAPSTest.RunTest.  Returns the Go error result paired
with the ordered trace of session actions; indexing strings.Fields(Input)[0]
on a whitespace-only input is an index-out-of-range panic, raised before
any dial (the deferred Close runs on every exit path after a successful
dial, hence the trailing close action). -/
def IMAPSTest.RunTest (srv : IMAPServer) (tst : Test) (target : String) (opts : Options) :
    Except GoPanic (Option String × List IMAPAction) :=
  match imapsResolvePort (tst.Arguments "port") with
  | .error e => .ok (some e, [])
  | .ok port =>
    let address := imapsAddress target port
    match (fields tst.Input).head? with
    | none => .error .indexOutOfRange
    | some firstToken =>
      let tlsSetup := imapsTLSConfig tst firstToken
      let dialAct := IMAPAction.dial address tlsSetup opts.Timeout
      match srv.dialErr address tlsSetup with
      | some e => .ok (some e, [dialAct])
      | none =>
        if tst.Arguments "username" ≠ "" ∧ tst.Arguments "password" ≠ "" then
          let u := tst.Arguments "username"
          let p := tst.Arguments "password"
          match srv.loginErr u p with
          | some e => .ok (some e, [dialAct, .login u p, .close])
          | none =>
            match srv.logoutErr with
            | some e => .ok (some e, [dialAct, .login u p, .logout, .close])
            | none => .ok (none, [dialAct, .login u p, .logout, .close])
        else
          .ok (none, [dialAct, .close])

/-! ## Enqueue subcommand (cmd_enqueue.go, old skx variant and newer
cmaster11 variant).  `parseFile` models parser.ParseFile applied to one
positional argument, including the per-job RPush calls made by the
enqueueTest callback: `none` is success, `some e` a parse-or-push error.
The returned list is the ordered list of files handed to ParseFile. -/

/-- Model of subcommands.ExitStatus. -/
inductive ExitStatus where
  | success
  | failure
deriving DecidableEq, Repr

/-- File loop of the old enqueueCmd.Execute: a parse error is printed and
the loop continues with the next file; the overall status is success. -/
def enqueueLoop000 (parseFile : String → Option String) :
    List String → List String → ExitStatus × List String
  | [], processed => (.success, processed)
  | f :: rest, processed =>
    -- the parse error, if any, is only printed
    let _e := parseFile f
    enqueueLoop000 parseFile rest (processed ++ [f])

/-- Old enqueueCmd.Execute: a ping failure is fatal before any file is
read; otherwise every positional file is processed. -/
def enqueueExecute000 (pingErr : Option String) (parseFile : String → Option String)
    (files : List String) : ExitStatus × List String :=
  match pingErr with
  | some _ => (.failure, [])
  | none => enqueueLoop000 parseFile files []

/-- File loop of the newer enqueueCmd.Execute: a parse error returns
ExitFailure immediately, and a successfully processed "-" (standard input)
breaks out of the loop. -/
def enqueueLoop001 (parseFile : String → Option String) :
    List String → List String → ExitStatus × List String
  | [], processed => (.success, processed)
  | f :: rest, processed =>
    match parseFile f with
    | some _ => (.failure, processed ++ [f])
    | none =>
      if f = "-" then (.success, processed ++ [f])
      else enqueueLoop001 parseFile rest (processed ++ [f])

/-- Newer enqueueCmd.Execute: a ping failure is fatal before any file is
read; otherwise the loop above runs. -/
def enqueueExecute001 (pingErr : Option String) (parseFile : String → Option String)
    (files : List String) : ExitStatus × List String :=
  match pingErr with
  | some _ => (.failure, [])
  | none => enqueueLoop001 parseFile files []

/-! ## Helper lemmas -/

theorem sortStrings_perm (l : List String) : (sortStrings l).Perm l :=
  List.perm_insertionSort _ l

theorem sortStrings_sorted (l : List String) :
    List.Sorted (fun a b => goStringLe a b = true) (sortStrings l) :=
  List.sorted_insertionSort _ l

theorem sortStrings_congr {l₁ l₂ : List String} (h : l₁.Perm l₂) :
    sortStrings l₁ = sortStrings l₂ :=
  List.eq_of_perm_of_sorted ((sortStrings_perm l₁).trans (h.trans (sortStrings_perm l₂).symm))
    (sortStrings_sorted l₁) (sortStrings_sorted l₂)

theorem goJoin_comma_eq_empty_iff (l : List String) :
    goJoin "," l = "" ↔ l = [] ∨ l = [""] := by
  match l with
  | [] => simp [goJoin]
  | [x] =>
    simp [goJoin]
  | x :: y :: t =>
    simp only [goJoin]
    constructor
    · intro h
      have hlen := congrArg String.length h
      simp [String.length_append] at hlen
      exact absurd hlen.1.2 (by decide)
    · intro h
      rcases h with h | h <;> simp at h

theorem compareDNSResults_eq_none_iff (res : List String) (result : String) :
    compareDNSResults res result = none ↔ goJoin "," (sortStrings res) = result := by
  by_cases h : goJoin "," (sortStrings res) = result
  · simp [compareDNSResults, h]
  · simp [compareDNSResults, h]

/-! ## localQuery helper lemmas -/

theorem localQuery_reply_propagate (m : Msg) (c : DNSClient) (r : Msg)
    (server qname ltype : String) (hty : StringToType ltype ≠ 0)
    (h : r.rcode = RcodeNameError ∨ r.rcode = RcodeSuccess) :
    localQuery ⟨some m, some c⟩ (fun _ _ _ => .reply (some r)) server qname ltype =
      .ok (.ok (some r), ⟨some (m.setQuestion qname (StringToType ltype)), some c⟩,
        [dnsAddress server]) := by
  rcases h with h | h <;>
    simp [localQuery, hty, h, RcodeNameError, RcodeSuccess]

theorem localQuery_reply_other (m : Msg) (c : DNSClient) (r : Msg)
    (server qname ltype : String) (hty : StringToType ltype ≠ 0)
    (h0 : r.rcode ≠ RcodeSuccess) (h3 : r.rcode ≠ RcodeNameError) :
    localQuery ⟨some m, some c⟩ (fun _ _ _ => .reply (some r)) server qname ltype =
      .ok (.ok none, ⟨some (m.setQuestion qname (StringToType ltype)), some c⟩,
        [dnsAddress server]) := by
  simp [localQuery, hty, h0, h3]

theorem localQuery_unsupported_type (g : DNSGlobals) (exchange : Exchange)
    (server qname ltype : String) (hty : StringToType ltype = 0) :
    localQuery g exchange server qname ltype =
      .ok (.error ("unsupported record to lookup \x27" ++ ltype ++ "\x27"), g, []) := by
  simp [localQuery, hty]

/-! ## Claim C2: tri-state response-code handling -/

/-- Claim C2: when the exchange itself returns no transport error, the
handling of the response code is exactly tri-state.  At the localQuery
level a success or name-error reply is propagated and any other code is
collapsed to a nil reply with a nil error; at the lookup level a success
reply is propagated together with its extracted answers, a name-error
reply becomes the "no such domain" error naming the fully-qualified
lookup name, and any other code yields the empty answer list and no
error. -/
theorem dns_rcode_tristate (g : DNSGlobals) (m : Msg) (c : DNSClient) (r : Msg)
    (server qname name ltype : String) (timeout : Int)
    (hty : StringToType ltype ≠ 0) :
    ((r.rcode = RcodeSuccess ∨ r.rcode = RcodeNameError) →
      localQuery ⟨some m, some c⟩ (fun _ _ _ => .reply (some r)) server qname ltype =
        .ok (.ok (some r), ⟨some (m.setQuestion qname (StringToType ltype)), some c⟩,
          [dnsAddress server])) ∧
    (r.rcode ≠ RcodeSuccess → r.rcode ≠ RcodeNameError →
      localQuery ⟨some m, some c⟩ (fun _ _ _ => .reply (some r)) server qname ltype =
        .ok (.ok none, ⟨some (m.setQuestion qname (StringToType ltype)), some c⟩,
          [dnsAddress server])) ∧
    (r.rcode = RcodeSuccess →
      lookup g (fun _ _ _ => .reply (some r)) server name ltype timeout =
        (extractAnswers r.answer).map fun res =>
          (.ok res,
            (⟨some ⟨true, [⟨fqdn name, StringToType ltype⟩], 0, []⟩,
              some ⟨timeout⟩⟩ : DNSGlobals),
            [dnsAddress server])) ∧
    (r.rcode = RcodeNameError →
      lookup g (fun _ _ _ => .reply (some r)) server name ltype timeout =
        .ok (.error ("no such domain " ++ fqdn name),
          ⟨some ⟨true, [⟨fqdn name, StringToType ltype⟩], 0, []⟩, some ⟨timeout⟩⟩,
          [dnsAddress server])) ∧
    (r.rcode ≠ RcodeSuccess → r.rcode ≠ RcodeNameError →
      lookup g (fun _ _ _ => .reply (some r)) server name ltype timeout =
        .ok (.ok [],
          ⟨some ⟨true, [⟨fqdn name, StringToType ltype⟩], 0, []⟩, some ⟨timeout⟩⟩,
          [dnsAddress server])) := by
  obtain ⟨gm, gc⟩ := g
  refine ⟨?_, ?_, ?_, ?_, ?_⟩
  · intro h
    exact localQuery_reply_propagate m c r server qname ltype hty h.symm
  · intro h0 h3
    exact localQuery_reply_other m c r server qname ltype hty h0 h3
  · intro h0
    have h3 : r.rcode ≠ RcodeNameError := by
      rw [h0]; decide
    simp only [lookup]
    rw [localQuery_reply_propagate _ _ r server (fqdn name) ltype hty (Or.inr h0)]
    simp only [Msg.setQuestion]
    rw [if_neg h3]
    cases hE : extractAnswers r.answer <;> simp [hE, Except.map]
  · intro h3
    simp only [lookup]
    rw [localQuery_reply_propagate _ _ r server (fqdn name) ltype hty (Or.inl h3)]
    simp only [Msg.setQuestion]
    rw [if_pos h3]
  · intro h0 h3
    simp only [lookup]
    rw [localQuery_reply_other _ _ r server (fqdn name) ltype hty h0 h3]
    simp [Msg.setQuestion]

/-- Claim C2 witness: a concrete success reply carrying one A record
propagates that record's extracted string. -/
theorem dns_rcode_tristate_witness :
    lookup ⟨none, none⟩ (fun _ _ _ => .reply (some ⟨false, [], 0, [RR.A "1.2.3.4"]⟩))
        "ns" "x" "A" 7 =
      .ok (.ok ["1.2.3.4"], ⟨some ⟨true, [⟨"x.", 1⟩], 0, []⟩, some ⟨7⟩⟩, ["ns:53"]) := by
  have h := (dns_rcode_tristate ⟨none, none⟩ ⟨false, [⟨"", 0⟩], 0, []⟩ ⟨7⟩
      ⟨false, [], 0, [RR.A "1.2.3.4"]⟩ "ns" "q" "x" "A" 7 (by decide)).2.2.1 rfl
  rw [h]
  decide

/-! ## Claim C1: RunTest writes the package-level query/client variables -/

/-- Claim C1 is violated by the code: a concrete RunTest call, started with
both package-level variables nil, leaves them pointing at the query message
and client allocated inside the call — lookup assigns the fresh objects to
the module-level localm and localc on every call, so the state outside the
call's scope changes. -/
theorem dns_runtest_writes_module_state :
    DNSTest.RunTest ⟨none, none⟩ (fun _ _ _ => .reply none)
        ⟨"input line", fun k => if k = "lookup" then "name" else if k = "type" then "A" else ""⟩
        "server" ⟨5⟩ =
      .ok (none, ⟨some ⟨true, [⟨"name.", 1⟩], 0, []⟩, some ⟨5⟩⟩, ["server:53"]) ∧
    (⟨some ⟨true, [⟨"name.", 1⟩], 0, []⟩, some ⟨5⟩⟩ : DNSGlobals) ≠ ⟨none, none⟩ :=
  ⟨by decide, by decide⟩

/-! ## Claim C5: argument validation before any network I/O -/

/-- Claim C5: an empty lookup argument, an empty type argument, or a type
token the static table does not map (exactly the tokens outside A, AAAA,
MX, NS, TXT) each make RunTest return an argument error with an empty
exchange trace, for every exchange oracle — so before any network I/O;
an empty result argument is not an error: with a valid lookup and type and
an exchange that answers success with no records, RunTest returns nil. -/
theorem dns_argument_validation (g : DNSGlobals) (exchange : Exchange) (tst : Test)
    (target : String) (opts : Options) :
    (tst.Arguments "lookup" = "" →
      DNSTest.RunTest g exchange tst target opts =
        .ok (some "no value to lookup specified", g, [])) ∧
    (tst.Arguments "lookup" ≠ "" → tst.Arguments "type" = "" →
      DNSTest.RunTest g exchange tst target opts =
        .ok (some "no record-type to lookup", g, [])) ∧
    (tst.Arguments "lookup" ≠ "" → tst.Arguments "type" ≠ "" →
      StringToType (tst.Arguments "type") = 0 →
      DNSTest.RunTest g exchange tst target opts =
        .ok (some ("unsupported record to lookup \x27" ++ tst.Arguments "type" ++ "\x27"),
          ⟨some ⟨true, [⟨"", 0⟩], 0, []⟩, some ⟨opts.Timeout⟩⟩, [])) ∧
    (∀ ltype, StringToType ltype ≠ 0 ↔ ltype ∈ (["A", "AAAA", "MX", "NS", "TXT"] : List String)) ∧
    (tst.Arguments "result" = "" → tst.Arguments "lookup" ≠ "" →
      StringToType (tst.Arguments "type") ≠ 0 →
      DNSTest.RunTest g (fun _ _ _ => .reply (some ⟨false, [], 0, []⟩)) tst target opts =
        .ok (none,
          ⟨some ⟨true, [⟨fqdn (tst.Arguments "lookup"),
            StringToType (tst.Arguments "type")⟩], 0, []⟩, some ⟨opts.Timeout⟩⟩,
          [dnsAddress target])) := by
  obtain ⟨gm, gc⟩ := g
  refine ⟨?_, ?_, ?_, ?_, ?_⟩
  · intro h
    simp [DNSTest.RunTest, h]
  · intro h1 h2
    simp [DNSTest.RunTest, h1, h2]
  · intro h1 h2 h0
    simp only [DNSTest.RunTest]
    rw [if_neg h1, if_neg h2]
    simp only [lookup]
    rw [localQuery_unsupported_type _ _ target (fqdn (tst.Arguments "lookup"))
      (tst.Arguments "type") h0]
  · intro ltype
    unfold StringToType
    split_ifs with h1 h2 h3 h4 h5 <;> simp_all
  · intro hres h1 hty
    have h2 : tst.Arguments "type" ≠ "" := by
      intro he
      rw [he] at hty
      exact hty (by decide)
    simp only [DNSTest.RunTest]
    rw [if_neg h1, if_neg h2]
    simp only [lookup]
    rw [localQuery_reply_propagate _ _ _ target (fqdn (tst.Arguments "lookup"))
      (tst.Arguments "type") hty (Or.inr rfl)]
    simp [Msg.setQuestion, extractAnswers, compareDNSResults, hres, sortStrings, goJoin,
      List.insertionSort, RcodeNameError]

/-- Claim C5 witness: a type token outside the table is rejected with an
empty exchange trace, an empty-result invocation with a valid type and an
empty success reply returns nil. -/
theorem dns_argument_validation_witness :
    DNSTest.RunTest ⟨none, none⟩ (fun _ _ _ => .reply none)
        ⟨"in", fun k => if k = "lookup" then "x" else if k = "type" then "PTR" else ""⟩
        "t" ⟨1⟩ =
      .ok (some "unsupported record to lookup \x27PTR\x27",
        ⟨some ⟨true, [⟨"", 0⟩], 0, []⟩, some ⟨1⟩⟩, []) ∧
    DNSTest.RunTest ⟨none, none⟩ (fun _ _ _ => .reply (some ⟨false, [], 0, []⟩))
        ⟨"in", fun k => if k = "lookup" then "x" else if k = "type" then "A" else ""⟩
        "t" ⟨1⟩ =
      .ok (none, ⟨some ⟨true, [⟨"x.", 1⟩], 0, []⟩, some ⟨1⟩⟩, ["t:53"]) := by
  constructor
  · exact (dns_argument_validation ⟨none, none⟩ (fun _ _ _ => .reply none)
      ⟨"in", fun k => if k = "lookup" then "x" else if k = "type" then "PTR" else ""⟩
      "t" ⟨1⟩).2.2.1 (by decide) (by decide) (by decide)
  · have h := (dns_argument_validation ⟨none, none⟩ (fun _ _ _ => .reply none)
      ⟨"in", fun k => if k = "lookup" then "x" else if k = "type" then "A" else ""⟩
      "t" ⟨1⟩).2.2.2.2 (by decide) (by decide) (by decide)
    rw [h]
    decide

/-! ## Claim C4: the sorted, comma-joined comparison -/

/-- Claim C4, counterexample to "an empty `result` matches exactly the empty
answer set": the singleton answer list containing the empty string — reachable
as the extraction of a TXT record whose first chunk is empty — also matches
the empty `result`. -/
theorem dns_compare_empty_result_counterexample :
    compareDNSResults [""] "" = none ∧ ([""] : List String) ≠ ([] : List String) ∧
      extractAnswers [RR.TXT [""]] = .ok [""] :=
  ⟨by decide, by decide, by decide⟩

/-- Claim C4 (amended): the comparison joins the lexicographically sorted
answers with commas and compares byte-for-byte, a mismatch error names both
the expected and the actual joined string, the comparison is invariant under
permutation of the answers (so two orderings of the same answer set agree,
e.g. both of ["b","a"] and ["a","b"] normalize to "a,b"), and an empty
`result` matches exactly the answer lists whose sorted comma-join is empty:
the empty list and the singleton list containing the empty string. -/
theorem dns_compare_normalization :
    (∀ res result, compareDNSResults res result =
        if goJoin "," (sortStrings res) = result then none
        else some ("expected DNS result to be \x27" ++ result ++ "\x27, but found \x27" ++
          goJoin "," (sortStrings res) ++ "\x27")) ∧
    (∀ res res' result, res.Perm res' →
        compareDNSResults res result = compareDNSResults res' result) ∧
    (sortStrings ["b", "a"] = ["a", "b"] ∧ sortStrings ["a", "b"] = ["a", "b"] ∧
      goJoin "," ["a", "b"] = "a,b") ∧
    (∀ res, compareDNSResults res "" = none ↔ res = [] ∨ res = [""]) := by
  refine ⟨?_, ?_, ⟨by decide, by decide, by decide⟩, ?_⟩
  · intro res result
    by_cases h : goJoin "," (sortStrings res) = result
    · simp [compareDNSResults, h]
    · simp [compareDNSResults, h]
  · intro res res' result h
    unfold compareDNSResults
    rw [sortStrings_congr h]
  · intro res
    rw [compareDNSResults_eq_none_iff, goJoin_comma_eq_empty_iff]
    constructor
    · intro h
      rcases h with h | h
      · left
        exact List.perm_nil.mp ((h ▸ sortStrings_perm res).symm)
      · right
        exact List.perm_singleton.mp ((h ▸ sortStrings_perm res).symm)
    · intro h
      rcases h with h | h <;> subst h
      · left; decide
      · right; decide

/-- Claim C4 witness: permutation invariance applied at the concrete pair of
orderings named by the spec. -/
theorem dns_compare_normalization_witness :
    compareDNSResults ["b", "a"] "a,b" = compareDNSResults ["a", "b"] "a,b" :=
  dns_compare_normalization.2.1 ["b", "a"] ["a", "b"] "a,b" (List.Perm.swap "a" "b" [])

/-! ## IMAPS helper lemma -/

theorem imaps_head_dial (srv : IMAPServer) (tst : Test) (target : String) (opts : Options)
    (port : Int) (w : String) (ws : List String)
    (hport : imapsResolvePort (tst.Arguments "port") = .ok port)
    (hfields : fields tst.Input = w :: ws) :
    ∃ r rest, IMAPSTest.RunTest srv tst target opts =
      .ok (r, .dial (imapsAddress target port) (imapsTLSConfig tst w) opts.Timeout :: rest) := by
  cases hd : srv.dialErr (imapsAddress target port) (imapsTLSConfig tst w) with
  | some e =>
    refine ⟨some e, [], ?_⟩
    simp [IMAPSTest.RunTest, hport, hfields, hd]
  | none =>
    by_cases hc : tst.Arguments "username" ≠ "" ∧ tst.Arguments "password" ≠ ""
    · cases hl : srv.loginErr (tst.Arguments "username") (tst.Arguments "password") with
      | some e =>
        refine ⟨some e,
          [.login (tst.Arguments "username") (tst.Arguments "password"), .close], ?_⟩
        simp [IMAPSTest.RunTest, hport, hfields, hd, hc, hl]
      | none =>
        cases hlo : srv.logoutErr with
        | some e =>
          refine ⟨some e,
            [.login (tst.Arguments "username") (tst.Arguments "password"), .logout, .close], ?_⟩
          simp [IMAPSTest.RunTest, hport, hfields, hd, hc, hl, hlo]
        | none =>
          refine ⟨none,
            [.login (tst.Arguments "username") (tst.Arguments "password"), .logout, .close], ?_⟩
          simp [IMAPSTest.RunTest, hport, hfields, hd, hc, hl, hlo]
    · refine ⟨none, [.close], ?_⟩
      simp [IMAPSTest.RunTest, hport, hfields, hd, hc]

/-! ## Claim C6: authentication is attempted iff both credentials are set -/

/-- Claim C6: once the connection is established, login runs if and only if
both username and password are non-empty; a login failure is returned with
no logout in the trace; on login success a logout is issued and its failure
is returned as the error; with either credential empty the run returns nil
with a bare dial-close trace. -/
theorem imaps_login_logout (srv : IMAPServer) (tst : Test) (target : String) (opts : Options)
    (port : Int) (w : String) (ws : List String)
    (hport : imapsResolvePort (tst.Arguments "port") = .ok port)
    (hfields : fields tst.Input = w :: ws)
    (hdial : srv.dialErr (imapsAddress target port) (imapsTLSConfig tst w) = none) :
    (∀ e, tst.Arguments "username" ≠ "" → tst.Arguments "password" ≠ "" →
      srv.loginErr (tst.Arguments "username") (tst.Arguments "password") = some e →
      IMAPSTest.RunTest srv tst target opts = .ok (some e,
        [.dial (imapsAddress target port) (imapsTLSConfig tst w) opts.Timeout,
         .login (tst.Arguments "username") (tst.Arguments "password"), .close])) ∧
    (∀ e, tst.Arguments "username" ≠ "" → tst.Arguments "password" ≠ "" →
      srv.loginErr (tst.Arguments "username") (tst.Arguments "password") = none →
      srv.logoutErr = some e →
      IMAPSTest.RunTest srv tst target opts = .ok (some e,
        [.dial (imapsAddress target port) (imapsTLSConfig tst w) opts.Timeout,
         .login (tst.Arguments "username") (tst.Arguments "password"), .logout, .close])) ∧
    (tst.Arguments "username" ≠ "" → tst.Arguments "password" ≠ "" →
      srv.loginErr (tst.Arguments "username") (tst.Arguments "password") = none →
      srv.logoutErr = none →
      IMAPSTest.RunTest srv tst target opts = .ok (none,
        [.dial (imapsAddress target port) (imapsTLSConfig tst w) opts.Timeout,
         .login (tst.Arguments "username") (tst.Arguments "password"), .logout, .close])) ∧
    ((tst.Arguments "username" = "" ∨ tst.Arguments "password" = "") →
      IMAPSTest.RunTest srv tst target opts = .ok (none,
        [.dial (imapsAddress target port) (imapsTLSConfig tst w) opts.Timeout, .close])) := by
  refine ⟨?_, ?_, ?_, ?_⟩
  · intro e hu hp hl
    simp [IMAPSTest.RunTest, hport, hfields, hdial, hu, hp, hl]
  · intro e hu hp hl hlo
    simp [IMAPSTest.RunTest, hport, hfields, hdial, hu, hp, hl, hlo]
  · intro hu hp hl hlo
    simp [IMAPSTest.RunTest, hport, hfields, hdial, hu, hp, hl, hlo]
  · intro h
    rcases h with h | h <;> simp [IMAPSTest.RunTest, hport, hfields, hdial, h]

/-- Claim C6 witness: with both credentials set and a fully successful
session the run returns nil after dial, login, logout, close. -/
theorem imaps_login_logout_witness :
    IMAPSTest.RunTest ⟨fun _ _ => none, fun _ _ => none, none⟩
        ⟨"mail.example.com must run imaps",
          fun k => if k = "username" then "u" else if k = "password" then "s" else ""⟩
        "1.2.3.4" ⟨3⟩ =
      .ok (none, [.dial "1.2.3.4:993" ⟨"mail.example.com", false⟩ 3,
        .login "u" "s", .logout, .close]) := by
  have h := (imaps_login_logout ⟨fun _ _ => none, fun _ _ => none, none⟩
      ⟨"mail.example.com must run imaps",
        fun k => if k = "username" then "u" else if k = "password" then "s" else ""⟩
      "1.2.3.4" ⟨3⟩ 993 "mail.example.com" ["must", "run", "imaps"]
      (by decide) (by decide) rfl).2.2.1 (by decide) (by decide) rfl rfl
  rw [h]
  decide

/-! ## Claim C7: the TLS server name comes from the input line -/

/-- Claim C7: the TLS configuration handed to the dialler carries as server
name the first whitespace-delimited token of the original Input string, not
the target, and certificate verification stays enabled — unless the tls
argument is the literal "insecure", in which case verification is disabled
and no server name is set. -/
theorem imaps_tls_server_name (srv : IMAPServer) (tst : Test) (target : String)
    (opts : Options) (port : Int) (w : String) (ws : List String)
    (hport : imapsResolvePort (tst.Arguments "port") = .ok port)
    (hfields : fields tst.Input = w :: ws) :
    (tst.Arguments "tls" ≠ "insecure" →
      imapsTLSConfig tst w = { serverName := w, insecureSkipVerify := false }) ∧
    (tst.Arguments "tls" = "insecure" →
      imapsTLSConfig tst w = { serverName := "", insecureSkipVerify := true }) ∧
    (∃ r rest, IMAPSTest.RunTest srv tst target opts =
      .ok (r, .dial (imapsAddress target port) (imapsTLSConfig tst w) opts.Timeout :: rest)) := by
  refine ⟨?_, ?_, imaps_head_dial srv tst target opts port w ws hport hfields⟩
  · intro h
    simp [imapsTLSConfig, h]
  · intro h
    simp [imapsTLSConfig, h]

/-- Claim C7 witness: with a pre-resolved IP target, verification still uses
the first token of the input line as server name. -/
theorem imaps_tls_server_name_witness :
    imapsTLSConfig ⟨"mail.example.com must run imaps", fun _ => ""⟩ "mail.example.com" =
      { serverName := "mail.example.com", insecureSkipVerify := false } :=
  (imaps_tls_server_name ⟨fun _ _ => none, fun _ _ => none, none⟩
    ⟨"mail.example.com must run imaps", fun _ => ""⟩ "1.2.3.4" ⟨3⟩ 993
    "mail.example.com" ["must", "run", "imaps"] (by decide) (by decide)).1 (by decide)

/-! ## Claim C9: whitespace-only input panics -/

/-- Claim C9: when the Input string has no non-whitespace character, the
run indexes the first element of the empty token list and panics instead of
returning an error, for every server oracle, target and argument map with a
resolvable port — in particular also when the tls argument is "insecure". -/
theorem imaps_whitespace_input_panics (srv : IMAPServer) (tst : Test) (target : String)
    (opts : Options) (port : Int)
    (hport : imapsResolvePort (tst.Arguments "port") = .ok port)
    (hinput : fields tst.Input = []) :
    IMAPSTest.RunTest srv tst target opts = .error .indexOutOfRange := by
  simp [IMAPSTest.RunTest, hport, hinput]

/-- Claim C9 witness: a whitespace-only input panics even with tls set to
insecure. -/
theorem imaps_whitespace_input_panics_witness :
    IMAPSTest.RunTest ⟨fun _ _ => none, fun _ _ => none, none⟩
        ⟨" ", fun k => if k = "tls" then "insecure" else ""⟩ "10.0.0.1" ⟨1⟩ =
      .error .indexOutOfRange :=
  imaps_whitespace_input_panics ⟨fun _ _ => none, fun _ _ => none, none⟩
    ⟨" ", fun k => if k = "tls" then "insecure" else ""⟩ "10.0.0.1" ⟨1⟩ 993
    (by decide) (by decide)

/-! ## Claim C8: the colon-presence address heuristic -/

/-- Claim C8: both probers form the connection address by the single
colon-presence heuristic — a target containing a colon is bracketed, one
without is not — with the DNS prober always appending port 53 (its only
exchange goes to that address) and the IMAPS prober appending the resolved
port, whose default is 993 (its dial goes to that address). -/
theorem address_colon_heuristic (server target : String) (port : Int) :
    (goContains target ':' = true →
      dnsAddress target = "[" ++ target ++ "]:" ++ toString 53 ∧
      imapsAddress target port = "[" ++ target ++ "]:" ++ toString port) ∧
    (goContains target ':' = false →
      dnsAddress target = target ++ ":" ++ toString 53 ∧
      imapsAddress target port = target ++ ":" ++ toString port) ∧
    imapsResolvePort "" = .ok 993 ∧
    (∀ (m : Msg) (c : DNSClient) (exchange : Exchange) (qname ltype : String),
      StringToType ltype ≠ 0 →
      ∃ res g', localQuery ⟨some m, some c⟩ exchange server qname ltype =
        .ok (res, g', [dnsAddress server])) ∧
    (∀ (srv : IMAPServer) (tst : Test) (opts : Options) (w : String) (ws : List String),
      imapsResolvePort (tst.Arguments "port") = .ok port →
      fields tst.Input = w :: ws →
      ∃ r rest, IMAPSTest.RunTest srv tst target opts =
        .ok (r, .dial (imapsAddress target port) (imapsTLSConfig tst w) opts.Timeout :: rest)) := by
  refine ⟨?_, ?_, by decide, ?_, ?_⟩
  · intro h
    constructor <;> simp [dnsAddress, imapsAddress, h]
  · intro h
    constructor <;> simp [dnsAddress, imapsAddress, h]
  · intro m c exchange qname ltype hty
    cases hx : exchange c (dnsAddress server) (m.setQuestion qname (StringToType ltype)) with
    | transportError e =>
      exact ⟨.error e, ⟨some (m.setQuestion qname (StringToType ltype)), some c⟩,
        by simp [localQuery, hty, hx]⟩
    | reply r =>
      cases r with
      | none =>
        exact ⟨.ok none, ⟨some (m.setQuestion qname (StringToType ltype)), some c⟩,
          by simp [localQuery, hty, hx]⟩
      | some msg =>
        by_cases hr : msg.rcode = RcodeNameError ∨ msg.rcode = RcodeSuccess
        · rcases hr with hr | hr
          · exact ⟨.ok (some msg), ⟨some (m.setQuestion qname (StringToType ltype)), some c⟩,
              by simp [localQuery, hty, hx, hr, RcodeNameError]⟩
          · exact ⟨.ok (some msg), ⟨some (m.setQuestion qname (StringToType ltype)), some c⟩,
              by simp [localQuery, hty, hx, hr, RcodeNameError, RcodeSuccess]⟩
        · exact ⟨.ok none, ⟨some (m.setQuestion qname (StringToType ltype)), some c⟩,
            by simp [localQuery, hty, hx, hr]⟩
  · intro srv tst opts w ws hp hf
    exact imaps_head_dial srv tst target opts port w ws hp hf

/-- Claim C8 witness: a colon-containing target is bracketed in both
probers, a colon-free target is not; the IMAPS default port is 993. -/
theorem address_colon_heuristic_witness :
    (dnsAddress "::1" = "[" ++ "::1" ++ "]:" ++ toString 53 ∧
      imapsAddress "::1" 993 = "[" ++ "::1" ++ "]:" ++ toString (993 : Int)) ∧
    (dnsAddress "host" = "host" ++ ":" ++ toString 53 ∧
      imapsAddress "host" 993 = "host" ++ ":" ++ toString (993 : Int)) :=
  ⟨(address_colon_heuristic "ns" "::1" 993).1 (by decide),
   (address_colon_heuristic "ns" "host" 993).2.1 (by decide)⟩

/-! ## Enqueue loop helper lemmas -/

theorem enqueueLoop000_all (parse : String → Option String) :
    ∀ (files processed : List String),
      enqueueLoop000 parse files processed = (.success, processed ++ files) := by
  intro files
  induction files with
  | nil => intro processed; simp [enqueueLoop000]
  | cons f rest ih =>
    intro processed
    simp [enqueueLoop000, ih]

theorem enqueueLoop001_skip (parse : String → Option String) :
    ∀ (pre : List String), (∀ f ∈ pre, parse f = none ∧ f ≠ "-") →
      ∀ rest processed, enqueueLoop001 parse (pre ++ rest) processed =
        enqueueLoop001 parse rest (processed ++ pre) := by
  intro pre
  induction pre with
  | nil => intro _ rest processed; simp
  | cons f pre ih =>
    intro h rest processed
    have hf := h f (List.mem_cons_self f pre)
    simp only [List.cons_append, enqueueLoop001, hf.1]
    rw [if_neg hf.2]
    have hrec := ih (fun x hx => h x (List.mem_cons_of_mem f hx)) rest (processed ++ [f])
    simp only [List.append_eq] at hrec ⊢
    rw [hrec]
    simp

/-! ## Claim C3: scope of a per-file failure, fatality of a ping failure -/

/-- Claim C3 counterexample: in the newer variant a parse failure on the
first of two files aborts the run with a non-zero exit and the second file
is never processed, contradicting "the remaining file arguments of the same
multi-file invocation are still processed". -/
theorem enqueue001_error_aborts_remaining :
    enqueueExecute001 none (fun f => if f = "a" then some "parse error" else none) ["a", "b"] =
      (.failure, ["a"]) ∧ ("b" : String) ∉ (["a"] : List String) :=
  ⟨by decide, by decide⟩

/-- Claim C3 (amended): in both variants a ping failure is fatal, with a
non-zero exit before any file is read.  In the older variant a per-file
failure is file-scoped: every file is still processed and the exit is
success.  In the newer variant a parse or push failure on one file instead
ends the run with a non-zero exit after that file, skipping the remaining
files. -/
theorem enqueue_failure_scoping :
    (∀ (e : String) parse files, enqueueExecute000 (some e) parse files = (.failure, [])) ∧
    (∀ (e : String) parse files, enqueueExecute001 (some e) parse files = (.failure, [])) ∧
    (∀ parse files, enqueueExecute000 none parse files = (.success, files)) ∧
    (∀ (parse : String → Option String) pre f e post,
      (∀ x ∈ pre, parse x = none ∧ x ≠ "-") → parse f = some e →
      enqueueExecute001 none parse (pre ++ f :: post) = (.failure, pre ++ [f])) := by
  refine ⟨?_, ?_, ?_, ?_⟩
  · intro e parse files
    simp [enqueueExecute000]
  · intro e parse files
    simp [enqueueExecute001]
  · intro parse files
    simpa using enqueueLoop000_all parse files []
  · intro parse pre f e post hpre hf
    simp only [enqueueExecute001]
    rw [enqueueLoop001_skip parse pre hpre (f :: post) []]
    simp [enqueueLoop001, hf]

/-- Claim C3 witness: the older variant processes the file after a failing
one; the newer aborts at the failing file. -/
theorem enqueue_failure_scoping_witness :
    enqueueExecute000 none (fun s => if s = "bad" then some "boom" else none) ["bad", "y"] =
      (.success, ["bad", "y"]) ∧
    enqueueExecute001 none (fun s => if s = "bad" then some "boom" else none)
        (["x"] ++ "bad" :: ["y"]) = (.failure, ["x"] ++ ["bad"]) :=
  ⟨enqueue_failure_scoping.2.2.1 (fun s => if s = "bad" then some "boom" else none) ["bad", "y"],
   enqueue_failure_scoping.2.2.2 (fun s => if s = "bad" then some "boom" else none)
     ["x"] "bad" "boom" ["y"] (by decide) (by decide)⟩

/-! ## Claim C10: a processed "-" ends the newer file loop -/

/-- Claim C10: in the newer variant, when "-" is reached and parses without
error, the loop breaks: the files listed after "-" are never processed and
the command exits with success. -/
theorem enqueue001_stdin_skips_rest (parse : String → Option String) (pre post : List String)
    (hpre : ∀ f ∈ pre, parse f = none ∧ f ≠ "-") (hdash : parse "-" = none) :
    enqueueExecute001 none parse (pre ++ "-" :: post) = (.success, pre ++ ["-"]) := by
  simp only [enqueueExecute001]
  rw [enqueueLoop001_skip parse pre hpre ("-" :: post) []]
  simp [enqueueLoop001, hdash]

/-- Claim C10 witness: the files after "-" are skipped and the exit is
success. -/
theorem enqueue001_stdin_skips_rest_witness :
    enqueueExecute001 none (fun _ => none) (["a"] ++ "-" :: ["b", "c"]) =
      (.success, ["a"] ++ ["-"]) :=
  enqueue001_stdin_skips_rest (fun _ => none) ["a"] ["b", "c"] (by decide) rfl

end Overseer
